import Mathlib

/-!
Verification of the completion-based poller slice of the gRPC repository.

The repository slice contains the IOCP poller header
(src/core/lib/event_engine/windows/iocp.h), the legacy call-context array
(src/core/lib/channel/context.h) and the posix endpoint-pair factory
(src/core/lib/iomgr/endpoint_pair_posix.cc).  The IOCP implementation file
(iocp.cc) is not part of the slice, so the poller behaviour is modelled from
the specification; the context and endpoint-pair code is embedded directly
from the source.
-/

namespace GrpcModel

/-- Modelled from the spec: a completion entry retrieved from the Completion
Port is either the reserved kick token (the dedicated `kick_overlap_`
descriptor of `IOCP`) or a real operation completion carrying a descriptor
identity, a byte count and a success status.  `iocp.cc` is missing from the
source slice; only the header declaring `Work`, `Kick`, `Watch`, `Shutdown`
and `outstanding_kicks_` is present. -/
inductive CompletionEntry where
  | kickToken
  | op (desc : Nat) (bytes : Nat) (ok : Bool)
  deriving DecidableEq

/-- Modelled from the spec: the poller state.  `outstanding_kicks` mirrors the
`std::atomic<int> outstanding_kicks_` field, `shutdown_flag` the shutdown
flag, `queued` the completions currently queued at the Completion Port,
`watched` the sockets registered via `Watch`, `pendingOps` the count of
outstanding operation descriptors, and `port_release_count` how many times
the kernel Port object has been released. -/
structure IOCPState where
  outstanding_kicks : Int
  shutdown_flag : Bool
  port_release_count : Nat
  pendingOps : Nat
  watched : List Nat
  queued : List CompletionEntry
  deriving DecidableEq

/-- Modelled from the spec: the freshly created poller. -/
def initIOCP : IOCPState :=
  { outstanding_kicks := 0, shutdown_flag := false, port_release_count := 0,
    pendingOps := 0, watched := [], queued := [] }

/-- Modelled from the spec: `Kick()` atomically increments the
outstanding-kick counter and posts the reserved kick descriptor to the port.
It is a total function: it never fails and returns no value. -/
def IOCP.Kick (s : IOCPState) : IOCPState :=
  { s with outstanding_kicks := s.outstanding_kicks + 1,
           queued := s.queued ++ [CompletionEntry.kickToken] }

/-- Number of kick tokens in a retrieved completion batch. -/
def countKicks : List CompletionEntry → Nat
  | [] => 0
  | CompletionEntry.kickToken :: rest => countKicks rest + 1
  | CompletionEntry.op _ _ _ :: rest => countKicks rest

/-- Modelled from the spec: the kick-token processing loop of `Work`.  For
each retrieved kick token the outstanding-kick counter is decremented, and
the call counts as genuinely interrupted exactly when one of those
decrements makes the counter reach zero.  Returns the final counter and the
interruption flag. -/
def processKicks : List CompletionEntry → Int → Int × Bool
  | [], k => (k, false)
  | CompletionEntry.kickToken :: rest, k =>
      let r := processKicks rest (k - 1)
      (r.1, ((k - 1 == 0) || r.2))
  | CompletionEntry.op _ _ _ :: rest, k => processKicks rest k

/-- Work results of the poller, per the specified `WorkResult` plus the
kicked outcome that Scenario C distinguishes from a real completion. -/
inductive WorkResult where
  | Ready
  | Timeout
  | ShutdownRequested
  | Kicked
  deriving DecidableEq

/-- Whether an entry is a real operation completion. -/
def isOpEntry : CompletionEntry → Bool
  | CompletionEntry.kickToken => false
  | CompletionEntry.op _ _ _ => true

/-- Outcome of one `Work` call: the successor poller state, the result code,
the real completions handed to the executor, and whether the kick processing
treated the call as genuinely interrupted. -/
structure WorkOutcome where
  state : IOCPState
  result : WorkResult
  dispatched : List CompletionEntry
  interrupted : Bool
  deriving DecidableEq

/-- Modelled from the spec: `Work(timeout, reschedule)` retrieves the batch
of completions queued at the port (empty batch means the timeout elapsed
with no completion and no kick).  Each kick token decrements the
outstanding-kick counter, interruption counting only when the counter
reaches zero; real completions are dispatched to the executor.  The result
is `Timeout` on an empty batch, `ShutdownRequested` when the shutdown flag
was observed, otherwise `Kicked` on a genuine interruption and `Ready` for
real completions. -/
def IOCP.Work (s : IOCPState) : WorkOutcome :=
  let batch := s.queued
  if batch = [] then
    { state := { s with queued := [] }, result := WorkResult.Timeout,
      dispatched := [], interrupted := false }
  else
    let pk := processKicks batch s.outstanding_kicks
    let dispatched := batch.filter isOpEntry
    let st := { s with
                queued := [], outstanding_kicks := pk.1,
                pendingOps := s.pendingOps - dispatched.length }
    let res :=
      if s.shutdown_flag then WorkResult.ShutdownRequested
      else if pk.2 then WorkResult.Kicked
      else WorkResult.Ready
    { state := st, result := res, dispatched := dispatched, interrupted := pk.2 }

/-- Lifecycle and construction errors of the poller boundary. -/
inductive PollerError where
  | PollerShutdown
  | WatchFailed
  deriving DecidableEq

/-- Modelled from the spec: `Watch(socket)` is rejected with `PollerShutdown`
once shutdown has begun; otherwise it registers the socket with the shared
Completion Port and returns the watched-socket handle. -/
def IOCP.Watch (s : IOCPState) (socket : Nat) : Except PollerError (IOCPState × Nat) :=
  if s.shutdown_flag then Except.error PollerError.PollerShutdown
  else Except.ok ({ s with watched := s.watched ++ [socket] }, socket)

/-- Modelled from the spec: `Shutdown()` sets the shutdown flag and issues a
`Kick` to unblock any thread inside `Work`; it is idempotent, and the Port is
released (at most once) only when no outstanding descriptors remain. -/
def IOCP.Shutdown (s : IOCPState) : IOCPState :=
  if s.shutdown_flag then s
  else
    let s1 := IOCP.Kick { s with shutdown_flag := true }
    if s1.pendingOps = 0 then
      { s1 with port_release_count := s1.port_release_count + 1 }
    else s1

/-! ## Operation-descriptor lifetime machine (modelled from the spec) -/

/-- Modelled from the spec: bookkeeping for Operation Descriptors, identified
by their (stable) ids.  `submitted` holds every descriptor ever submitted,
`ready` the completions the kernel has queued but `Work` has not retrieved,
`observed` those observed in a retrieved completion batch, `cancelled` those
released by a confirmed-synchronous cancellation, and `freed` every
descriptor whose memory has been released. -/
structure DescPoolState where
  submitted : List Nat
  ready : List Nat
  observed : List Nat
  cancelled : List Nat
  freed : List Nat
  deriving DecidableEq

/-- The initial descriptor pool: nothing submitted. -/
def initDescPool : DescPoolState :=
  { submitted := [], ready := [], observed := [], cancelled := [], freed := [] }

/-- Modelled from the spec: the steps of the descriptor lifetime.  A fresh
descriptor is submitted; the kernel asynchronously queues its completion; the
`Work` loop retrieves the queued batch, observing and releasing its
descriptors; a confirmed-synchronous cancellation releases a descriptor that
will never complete.  No step moves a descriptor (ids are stable) and no
step reuses an id. -/
inductive DescStep : DescPoolState → DescPoolState → Prop where
  | submit (s : DescPoolState) (d : Nat) (hfresh : d ∉ s.submitted) :
      DescStep s { s with submitted := d :: s.submitted }
  | complete (s : DescPoolState) (d : Nat) (hsub : d ∈ s.submitted)
      (hready : d ∉ s.ready) (hobs : d ∉ s.observed) (hcan : d ∉ s.cancelled) :
      DescStep s { s with ready := d :: s.ready }
  | retrieve (s : DescPoolState) :
      DescStep s { s with observed := s.ready ++ s.observed,
                          freed := s.ready ++ s.freed, ready := [] }
  | cancelSync (s : DescPoolState) (d : Nat) (hsub : d ∈ s.submitted)
      (hready : d ∉ s.ready) (hobs : d ∉ s.observed) (hcan : d ∉ s.cancelled) :
      DescStep s { s with cancelled := d :: s.cancelled, freed := d :: s.freed }

/-- States reachable from the initial descriptor pool. -/
inductive DescReachable : DescPoolState → Prop where
  | init : DescReachable initDescPool
  | step (s t : DescPoolState) (hr : DescReachable s) (hs : DescStep s t) :
      DescReachable t

/-- A descriptor is in flight when it has been submitted but neither observed
in a retrieved completion batch nor confirmed synchronously cancelled. -/
def InFlight (s : DescPoolState) (d : Nat) : Prop :=
  d ∈ s.submitted ∧ d ∉ s.observed ∧ d ∉ s.cancelled

/-! ## Watched-socket completion counting (modelled from the spec) -/

/-- Modelled from the spec: the events of one Watched Socket: a submission
that the kernel accepted, a submission that failed synchronously, and the
`Work` loop observing one completed descriptor. -/
inductive SockEvent where
  | submitOk
  | submitFail
  | complete
  deriving DecidableEq

/-- Per-socket counters: successful submissions, synchronous submission
failures, and completions observed by the `Work` loop. -/
structure SockCounters where
  submittedOk : Nat
  submittedFail : Nat
  completed : Nat
  deriving DecidableEq

/-- All counters start at zero. -/
def initSock : SockCounters :=
  { submittedOk := 0, submittedFail := 0, completed := 0 }

/-- Modelled from the spec: the effect of one socket event on the counters.
A completion can only be observed for an outstanding successful submission,
so no spurious completion is ever counted. -/
def sockStep (c : SockCounters) : SockEvent → SockCounters
  | SockEvent.submitOk => { c with submittedOk := c.submittedOk + 1 }
  | SockEvent.submitFail => { c with submittedFail := c.submittedFail + 1 }
  | SockEvent.complete =>
      if c.completed < c.submittedOk then { c with completed := c.completed + 1 }
      else c

/-- Folds a finite run of socket events over the counters. -/
def sockRun (c : SockCounters) : List SockEvent → SockCounters
  | [] => c
  | e :: rest => sockRun (sockStep c e) rest

/-- Modelled from the spec: a clean `Shutdown` of a Watched Socket blocks
until every outstanding descriptor has completed, so after it the observed
count has drained up to the successful-submission count. -/
def sockShutdown (c : SockCounters) : SockCounters :=
  { c with completed := c.submittedOk }

/-- Total number of submissions (successful or synchronously failed) in a
run of socket events. -/
def totalSubmits : List SockEvent → Nat
  | [] => 0
  | SockEvent.submitOk :: rest => totalSubmits rest + 1
  | SockEvent.submitFail :: rest => totalSubmits rest + 1
  | SockEvent.complete :: rest => totalSubmits rest

end GrpcModel

namespace GrpcContext

/-- The indexes into the legacy call-context array, from the
`grpc_context_index` enum of src/core/lib/channel/context.h. -/
inductive grpc_context_index where
  | call
  | security
  | tracing
  | callTracerAnnIface
  | callTracer
  | traffic
  | serviceConfigCallData
  | backendMetricProvider
  | subchannelCallTracker
  | google
  deriving DecidableEq

/-- One element of the legacy context array: a value pointer and an optional
destroy callback, both null-initialised (`void* value = nullptr;
void (*destroy)(void*) = nullptr`).  Pointers are modelled as `Option Nat`
with `none` for null; a destroy callback is identified by a `Nat`. -/
structure grpc_call_context_element where
  value : Option Nat := none
  destroy : Option Nat := none
  deriving DecidableEq

/-- The context element types with a registered legacy index
(the `OldStyleContext<T>` specializations). -/
inductive OldStyleCtxType where
  | callT
  | callTracerAnnIfaceT
  | callTracerT
  | serviceConfigCallDataT
  deriving DecidableEq

/-- The `kIndex` constant of each `OldStyleContext<T>` specialization. -/
def kIndex : OldStyleCtxType → grpc_context_index
  | OldStyleCtxType.callT => grpc_context_index.call
  | OldStyleCtxType.callTracerAnnIfaceT => grpc_context_index.callTracerAnnIface
  | OldStyleCtxType.callTracerT => grpc_context_index.callTracer
  | OldStyleCtxType.serviceConfigCallDataT => grpc_context_index.serviceConfigCallData

/-- The legacy context array together with a log of the destroy-callback
invocations `(callback, argument)` made so far, in order. -/
structure CallContextState where
  elems : grpc_context_index → grpc_call_context_element
  destroyLog : List (Nat × Option Nat)

/-- A context whose slots were never set: every element is null-initialised. -/
def initCallContext : CallContextState :=
  { elems := fun _ => {}, destroyLog := [] }

/-- Embeds `Context<T>::set` from context.h: if the destroy callback of the element
callback is non-null it is invoked on the previously stored value and reset
to null; then the new pointer is stored. -/
def Context.set (st : CallContextState) (idx : grpc_context_index)
    (v : Option Nat) : CallContextState :=
  let elem := st.elems idx
  match elem.destroy with
  | some d =>
      { elems := fun j =>
          if j = idx then { value := v, destroy := none } else st.elems j,
        destroyLog := st.destroyLog ++ [(d, elem.value)] }
  | none =>
      { elems := fun j =>
          if j = idx then { value := v, destroy := elem.destroy } else st.elems j,
        destroyLog := st.destroyLog }

/-- Embeds `Context<T>::get` from context.h: returns the stored value
pointer of the element at the registered index of the type. -/
def Context.get (st : CallContextState) (idx : grpc_context_index) : Option Nat :=
  (st.elems idx).value

end GrpcContext

namespace GrpcEndpointPair

/-- Observable side effects performed on the socket pair by
src/core/lib/iomgr/endpoint_pair_posix.cc: putting a socket in non-blocking
mode (`fcntl(sv[i], F_SETFL, flags | O_NONBLOCK)`), suppressing SIGPIPE
(`grpc_set_socket_no_sigpipe_if_possible(sv[i])`), and wrapping a socket in
an endpoint (`grpc_tcp_create(grpc_fd_create(fd, fdName, false), args, ...)`). -/
inductive SockAction where
  | setNonBlocking (fd : Nat)
  | setNoSigpipe (fd : Nat)
  | createEndpoint (fd : Nat) (fdName : String) (args : Nat)
  deriving DecidableEq

/-- An endpoint as produced by `grpc_tcp_create(grpc_fd_create(fd, fdName,
false), config, peerString)`: the wrapped file descriptor, the fd name, the
(preconditioned) channel args it was configured with, and the peer string. -/
structure GrpcEndpoint where
  fd : Nat
  fdName : String
  args : Nat
  peerString : String
  deriving DecidableEq

/-- The client/server endpoint pair returned by
`grpc_iomgr_create_endpoint_pair`. -/
structure grpc_endpoint_pair where
  client : GrpcEndpoint
  server : GrpcEndpoint
  deriving DecidableEq

/-- Embeds `grpc_tcp_create(grpc_fd_create(fd, fdName, false), config,
peer)` as the record of what the endpoint wraps. -/
def grpc_tcp_create (fd : Nat) (fdName : String) (args : Nat)
    (peer : String) : GrpcEndpoint :=
  { fd := fd, fdName := fdName, args := args, peerString := peer }

/-- Embeds `create_sockets` from endpoint_pair_posix.cc as its action trace:
both sockets of the pair are put in non-blocking mode and have SIGPIPE
suppressed, in source order. -/
def create_sockets (sv0 sv1 : Nat) : List SockAction :=
  [SockAction.setNonBlocking sv0, SockAction.setNonBlocking sv1,
   SockAction.setNoSigpipe sv0, SockAction.setNoSigpipe sv1]

/-- Embeds `grpc_iomgr_create_endpoint_pair` from endpoint_pair_posix.cc.
Channel-args preconditioning (`PreconditionChannelArgs`) lives outside the
slice and is taken as an arbitrary function `precond`; `sv0`/`sv1` stand for
the socket pair `sv[0]`/`sv[1]` produced by `grpc_create_socketpair_if_unix`.
Returns the full action trace and the endpoint pair. -/
def grpc_iomgr_create_endpoint_pair (precond : Nat → Nat) (name : String)
    (args sv0 sv1 : Nat) : List SockAction × grpc_endpoint_pair :=
  let prep := create_sockets sv0 sv1
  let new_args := precond args
  let client := grpc_tcp_create sv1 (name ++ ":client") new_args "socketpair-server"
  let server := grpc_tcp_create sv0 (name ++ ":server") new_args "socketpair-client"
  (prep ++ [SockAction.createEndpoint sv1 (name ++ ":client") new_args,
            SockAction.createEndpoint sv0 (name ++ ":server") new_args],
   { client := client, server := server })

/-- Whether an action is an endpoint creation. -/
def isCreate : SockAction → Bool
  | SockAction.createEndpoint _ _ _ => true
  | _ => false

end GrpcEndpointPair

namespace GrpcModel

/-- The kick-processing loop decrements the counter once per kick token and
reports an interruption exactly when some decrement lands on zero. -/
theorem processKicks_spec (batch : List CompletionEntry) (k : Int) :
    (processKicks batch k).1 = k - countKicks batch ∧
    ((processKicks batch k).2 = true ↔
      1 ≤ k ∧ k ≤ countKicks batch) := by
  induction batch generalizing k with
  | nil =>
      refine ⟨by simp [processKicks, countKicks], ?_⟩
      simp only [processKicks, countKicks]
      constructor
      · intro h
        exact absurd h (by simp)
      · intro h
        push_cast at h
        omega
  | cons e rest ih =>
      cases e with
      | kickToken =>
          have h := ih (k - 1)
          refine ⟨?_, ?_⟩
          · simp only [processKicks, countKicks]
            rw [h.1]
            push_cast
            ring
          · simp only [processKicks, countKicks, Bool.or_eq_true, beq_iff_eq]
            rw [h.2]
            push_cast
            omega
      | op d b ok =>
          simpa [processKicks, countKicks] using ih k

/-- C1: every completion bearing the reserved kick token that `Work`
retrieves decrements the outstanding-kick counter (the final counter is the
initial one minus the number of retrieved kick tokens), and `Work` treats
the call as genuinely interrupted exactly when one of those decrements makes
the counter reach zero; kick completions retrieved while the counter stays
above zero do not count as an interruption. -/
theorem IOCP.Work_kick_decrement (s : IOCPState) :
    (IOCP.Work s).state.outstanding_kicks
        = s.outstanding_kicks - countKicks s.queued ∧
    ((IOCP.Work s).interrupted = true ↔
        1 ≤ s.outstanding_kicks ∧
          s.outstanding_kicks ≤ countKicks s.queued) := by
  have hp := processKicks_spec s.queued s.outstanding_kicks
  by_cases h : s.queued = []
  · refine ⟨?_, ?_⟩
    · simp [IOCP.Work, h, countKicks]
    · have h2 : (IOCP.Work s).interrupted = false := by
        simp [IOCP.Work, h]
      rw [h2, h]
      simp only [countKicks, Nat.cast_zero]
      constructor
      · intro hx
        exact absurd hx (by simp)
      · intro hx
        exact absurd hx (by omega)
  · simp only [IOCP.Work, if_neg h]
    exact ⟨hp.1, hp.2⟩

/-- Witness for C1 at a concrete poller: one kick queued, counter one. -/
theorem IOCP.Work_kick_decrement_wit :
    (IOCP.Work (IOCP.Kick initIOCP)).state.outstanding_kicks
        = (IOCP.Kick initIOCP).outstanding_kicks
            - countKicks (IOCP.Kick initIOCP).queued ∧
    ((IOCP.Work (IOCP.Kick initIOCP)).interrupted = true ↔
        1 ≤ (IOCP.Kick initIOCP).outstanding_kicks ∧
          (IOCP.Kick initIOCP).outstanding_kicks
            ≤ countKicks (IOCP.Kick initIOCP).queued) :=
  IOCP.Work_kick_decrement (IOCP.Kick initIOCP)

/-- C4: `Kick` is a total function (it never fails and returns no value
beyond the updated state); it increments the outstanding-kick counter by one
and posts the reserved kick token to the port; after a kick the next `Work`
call never blocks until its timeout (it cannot return `Timeout`) and it
consumes the queued tokens; on an otherwise idle poller the kick is consumed
as a genuine interruption. -/
theorem IOCP.Kick_spec (s : IOCPState) :
    (IOCP.Kick s).outstanding_kicks = s.outstanding_kicks + 1 ∧
    (IOCP.Kick s).queued = s.queued ++ [CompletionEntry.kickToken] ∧
    (IOCP.Work (IOCP.Kick s)).result ≠ WorkResult.Timeout ∧
    (IOCP.Work (IOCP.Kick s)).state.queued = [] ∧
    (s.queued = [] → s.shutdown_flag = false → s.outstanding_kicks = 0 →
      (IOCP.Work (IOCP.Kick s)).result = WorkResult.Kicked) := by
  have hne : (IOCP.Kick s).queued ≠ [] := by
    simp [IOCP.Kick]
  refine ⟨rfl, rfl, ?_, ?_, ?_⟩
  · simp only [IOCP.Work, if_neg hne]
    split
    · simp
    · split <;> simp
  · simp only [IOCP.Work, if_neg hne]
  · intro hq hf hk
    simp [IOCP.Work, IOCP.Kick, hq, hf, hk, processKicks]

/-- Witness for C4 at the freshly created poller. -/
theorem IOCP.Kick_spec_wit :
    (IOCP.Kick initIOCP).outstanding_kicks = initIOCP.outstanding_kicks + 1 ∧
    (IOCP.Kick initIOCP).queued
        = initIOCP.queued ++ [CompletionEntry.kickToken] ∧
    (IOCP.Work (IOCP.Kick initIOCP)).result ≠ WorkResult.Timeout ∧
    (IOCP.Work (IOCP.Kick initIOCP)).state.queued = [] ∧
    (initIOCP.queued = [] → initIOCP.shutdown_flag = false →
      initIOCP.outstanding_kicks = 0 →
      (IOCP.Work (IOCP.Kick initIOCP)).result = WorkResult.Kicked) :=
  IOCP.Kick_spec initIOCP

/-- C7: `Work` returns `Timeout` exactly when no completion and no kick was
queued within the deadline; when something arrived and the shutdown flag was
observed it returns `ShutdownRequested`; and a timed-out call on an idle
poller delivers no completion to the executor. -/
theorem IOCP.Work_result_spec (s : IOCPState) :
    ((IOCP.Work s).result = WorkResult.Timeout ↔ s.queued = []) ∧
    (s.queued ≠ [] → s.shutdown_flag = true →
      (IOCP.Work s).result = WorkResult.ShutdownRequested) ∧
    (s.queued = [] → (IOCP.Work s).dispatched = []) := by
  by_cases h : s.queued = []
  · refine ⟨?_, fun hne _ => absurd h hne, ?_⟩
    · simp [IOCP.Work, h]
    · intro _
      simp [IOCP.Work, h]
  · refine ⟨?_, ?_, fun he => absurd he h⟩
    · simp only [IOCP.Work, if_neg h]
      constructor
      · intro hres
        split at hres
        · exact absurd hres (by simp)
        · split at hres <;> exact absurd hres (by simp)
      · intro he
        exact absurd he h
    · intro _ hf
      simp [IOCP.Work, if_neg h, hf]

/-- Witness for C7: an idle poller times out with nothing dispatched, and a
poller with a queued completion under shutdown reports it. -/
theorem IOCP.Work_result_spec_wit :
    (((IOCP.Work initIOCP).result = WorkResult.Timeout ↔
        initIOCP.queued = []) ∧
      (initIOCP.queued ≠ [] → initIOCP.shutdown_flag = true →
        (IOCP.Work initIOCP).result = WorkResult.ShutdownRequested) ∧
      (initIOCP.queued = [] → (IOCP.Work initIOCP).dispatched = [])) ∧
    (IOCP.Work (IOCP.Kick (IOCP.Shutdown initIOCP))).result
        = WorkResult.ShutdownRequested :=
  ⟨IOCP.Work_result_spec initIOCP,
    (IOCP.Work_result_spec (IOCP.Kick (IOCP.Shutdown initIOCP))).2.1
      (by decide) (by decide)⟩

/-- After `Shutdown` the shutdown flag is always set. -/
theorem IOCP.Shutdown_flag (s : IOCPState) :
    (IOCP.Shutdown s).shutdown_flag = true := by
  by_cases h : s.shutdown_flag
  · simp [IOCP.Shutdown, h]
  · simp only [IOCP.Shutdown, Bool.not_eq_true] at *
    rw [if_neg (by simp [h])]
    split <;> simp [IOCP.Kick]

/-- Once the shutdown flag is set, `Shutdown` leaves the state unchanged. -/
theorem IOCP.Shutdown_noop (s : IOCPState) (h : s.shutdown_flag = true) :
    IOCP.Shutdown s = s := by
  simp [IOCP.Shutdown, h]

/-- C5: `Shutdown` sets the shutdown flag and (when it is the call that
begins shutdown) issues a `Kick` — incrementing the outstanding-kick counter
and posting the reserved kick token so a blocked `Work` is unblocked; every
`Watch` call on a poller whose shutdown has begun, in particular on the
state produced by `Shutdown`, is rejected with `PollerShutdown` and
registers no watched socket. -/
theorem IOCP.Shutdown_rejects_watch (s : IOCPState) (socket : Nat) :
    (IOCP.Shutdown s).shutdown_flag = true ∧
    IOCP.Watch (IOCP.Shutdown s) socket
        = Except.error PollerError.PollerShutdown ∧
    (∀ t : IOCPState, t.shutdown_flag = true →
      IOCP.Watch t socket = Except.error PollerError.PollerShutdown) ∧
    (s.shutdown_flag = false →
      (IOCP.Shutdown s).queued = s.queued ++ [CompletionEntry.kickToken] ∧
      (IOCP.Shutdown s).outstanding_kicks = s.outstanding_kicks + 1) := by
  refine ⟨IOCP.Shutdown_flag s, ?_, ?_, ?_⟩
  · simp [IOCP.Watch, IOCP.Shutdown_flag s]
  · intro t ht
    simp [IOCP.Watch, ht]
  · intro h
    simp only [IOCP.Shutdown]
    rw [if_neg (by simp [h])]
    split <;> simp [IOCP.Kick]

/-- Witness for C5 on the freshly created poller. -/
theorem IOCP.Shutdown_rejects_watch_wit :
    (IOCP.Shutdown initIOCP).shutdown_flag = true ∧
    IOCP.Watch (IOCP.Shutdown initIOCP) 7
        = Except.error PollerError.PollerShutdown ∧
    (∀ t : IOCPState, t.shutdown_flag = true →
      IOCP.Watch t 7 = Except.error PollerError.PollerShutdown) ∧
    (initIOCP.shutdown_flag = false →
      (IOCP.Shutdown initIOCP).queued
          = initIOCP.queued ++ [CompletionEntry.kickToken] ∧
      (IOCP.Shutdown initIOCP).outstanding_kicks
          = initIOCP.outstanding_kicks + 1) :=
  IOCP.Shutdown_rejects_watch initIOCP 7

/-- C6: `Shutdown` is idempotent — a second call leaves the poller in
exactly the terminal state of the first — and starting from a poller whose
Port was never released, two `Shutdown` calls release the Port at most
once. -/
theorem IOCP.Shutdown_idem (s : IOCPState) :
    IOCP.Shutdown (IOCP.Shutdown s) = IOCP.Shutdown s ∧
    (s.port_release_count = 0 →
      (IOCP.Shutdown (IOCP.Shutdown s)).port_release_count ≤ 1) := by
  have hidem : IOCP.Shutdown (IOCP.Shutdown s) = IOCP.Shutdown s :=
    IOCP.Shutdown_noop _ (IOCP.Shutdown_flag s)
  refine ⟨hidem, ?_⟩
  intro h0
  rw [hidem]
  by_cases h : s.shutdown_flag
  · simp [IOCP.Shutdown, h, h0]
  · simp only [IOCP.Shutdown, Bool.not_eq_true] at *
    rw [if_neg (by simp [h])]
    split <;> simp [IOCP.Kick, h0]

/-- Witness for C6 on the freshly created poller. -/
theorem IOCP.Shutdown_idem_wit :
    IOCP.Shutdown (IOCP.Shutdown initIOCP) = IOCP.Shutdown initIOCP ∧
    (initIOCP.port_release_count = 0 →
      (IOCP.Shutdown (IOCP.Shutdown initIOCP)).port_release_count ≤ 1) :=
  IOCP.Shutdown_idem initIOCP

/-- C8 counterexample: the outstanding-kick counter is not monotonic.  On
the concrete run "fresh poller, one `Kick`, one `Work`", the `Work` call
retrieves the kick completion and decreases the counter from one back to
zero. -/
theorem outstanding_kicks_not_monotonic :
    (IOCP.Work (IOCP.Kick initIOCP)).state.outstanding_kicks
      < (IOCP.Kick initIOCP).outstanding_kicks := by
  decide

/-- C8 (amended): the outstanding-kick counter is never decreased by `Kick`
(which increments it by one), by `Shutdown` or by `Watch`; the only
operation that decreases it is `Work`, which decrements it once for each
kick completion it retrieves. -/
theorem outstanding_kicks_evolution (s : IOCPState) (socket : Nat) :
    (IOCP.Kick s).outstanding_kicks = s.outstanding_kicks + 1 ∧
    s.outstanding_kicks ≤ (IOCP.Shutdown s).outstanding_kicks ∧
    (∀ t r, IOCP.Watch s socket = Except.ok (t, r) →
      t.outstanding_kicks = s.outstanding_kicks) ∧
    (IOCP.Work s).state.outstanding_kicks
      = s.outstanding_kicks - countKicks s.queued := by
  refine ⟨rfl, ?_, ?_, ?_⟩
  · by_cases h : s.shutdown_flag
    · simp [IOCP.Shutdown, h]
    · simp only [IOCP.Shutdown, Bool.not_eq_true] at *
      rw [if_neg (by simp [h])]
      split <;> simp [IOCP.Kick]
  · intro t r ht
    by_cases h : s.shutdown_flag
    · simp [IOCP.Watch, h] at ht
    · simp only [IOCP.Watch, Bool.not_eq_true] at *
      rw [if_neg (by simp [h])] at ht
      cases ht
      rfl
  · have hp := processKicks_spec s.queued s.outstanding_kicks
    by_cases h : s.queued = []
    · simp [IOCP.Work, h, countKicks]
    · simp only [IOCP.Work, if_neg h]
      exact hp.1

/-- Witness for the amended C8 on the freshly created poller. -/
theorem outstanding_kicks_evolution_wit :
    (IOCP.Kick initIOCP).outstanding_kicks
        = initIOCP.outstanding_kicks + 1 ∧
    initIOCP.outstanding_kicks
        ≤ (IOCP.Shutdown initIOCP).outstanding_kicks ∧
    (∀ t r, IOCP.Watch initIOCP 7 = Except.ok (t, r) →
      t.outstanding_kicks = initIOCP.outstanding_kicks) ∧
    (IOCP.Work initIOCP).state.outstanding_kicks
      = initIOCP.outstanding_kicks - countKicks initIOCP.queued :=
  outstanding_kicks_evolution initIOCP 7

/-- In every reachable descriptor-pool state, the freed descriptors are
exactly those observed in a retrieved batch or confirmed cancelled. -/
theorem descPool_freed_iff (s : DescPoolState) (hr : DescReachable s) :
    ∀ d, d ∈ s.freed ↔ (d ∈ s.observed ∨ d ∈ s.cancelled) := by
  induction hr with
  | init =>
      intro d
      simp [initDescPool]
  | step u t hru hstep ih =>
      intro d
      cases hstep with
      | submit x hfresh => simpa using ih d
      | complete x h1 h2 h3 h4 => simpa using ih d
      | retrieve =>
          have hd := ih d
          simp only [List.mem_append]
          tauto
      | cancelSync x h1 h2 h3 h4 =>
          have hd := ih d
          simp only [List.mem_cons]
          tauto

/-- C2: in every reachable state of the descriptor-lifetime machine, no
in-flight Operation Descriptor — submitted but neither observed in a
retrieved completion batch nor confirmed synchronously cancelled — has had
its memory released (descriptor ids are stable, so an unreleased descriptor
also never moves); moreover across any single step the only way a
descriptor becomes freed is by that step observing it in the retrieved
batch or confirming its synchronous cancellation. -/
theorem descPool_no_free_while_in_flight (s : DescPoolState)
    (hr : DescReachable s) :
    (∀ d, InFlight s d → d ∉ s.freed) ∧
    (∀ t, DescStep s t → ∀ d, d ∈ t.freed →
      d ∈ s.freed ∨ (d ∈ t.observed ∧ d ∈ t.freed)
        ∨ (d ∈ t.cancelled ∧ d ∈ t.freed)) := by
  constructor
  · intro d hd hdf
    rcases (descPool_freed_iff s hr d).1 hdf with h | h
    · exact hd.2.1 h
    · exact hd.2.2 h
  · intro t hstep d hdf
    cases hstep with
    | submit x hfresh => exact Or.inl hdf
    | complete x h1 h2 h3 h4 => exact Or.inl hdf
    | retrieve =>
        rcases List.mem_append.1 hdf with h | h
        · exact Or.inr (Or.inl ⟨List.mem_append.2 (Or.inl h), hdf⟩)
        · exact Or.inl h
    | cancelSync x h1 h2 h3 h4 =>
        rcases List.mem_cons.1 hdf with h | h
        · exact Or.inr (Or.inr ⟨List.mem_cons.2 (Or.inl h), hdf⟩)
        · exact Or.inl h

/-- Witness for C2: after submitting descriptor 0 to the fresh pool it is in
flight and not freed. -/
theorem descPool_no_free_wit :
    (0 : Nat) ∉ ({ submitted := [0], ready := [], observed := [],
                   cancelled := [], freed := [] } : DescPoolState).freed := by
  exact (descPool_no_free_while_in_flight _
      (DescReachable.step _ _ DescReachable.init
        (DescStep.submit initDescPool 0 (by simp [initDescPool])))).1 0
    ⟨by simp [initDescPool], by simp [initDescPool], by simp [initDescPool]⟩

/-- Along any run of socket events the successful and failed submission
counters add up to the number of submission events. -/
theorem sockRun_total (c : SockCounters) (tr : List SockEvent) :
    (sockRun c tr).submittedOk + (sockRun c tr).submittedFail
      = c.submittedOk + c.submittedFail + totalSubmits tr := by
  induction tr generalizing c with
  | nil => simp [sockRun, totalSubmits]
  | cons e rest ih =>
      cases e with
      | submitOk =>
          have h := ih { c with submittedOk := c.submittedOk + 1 }
          simp only [sockRun, sockStep, totalSubmits] at *
          omega
      | submitFail =>
          have h := ih { c with submittedFail := c.submittedFail + 1 }
          simp only [sockRun, sockStep, totalSubmits] at *
          omega
      | complete =>
          by_cases hc : c.completed < c.submittedOk
          · have h := ih { c with completed := c.completed + 1 }
            simp only [sockRun, sockStep, totalSubmits, if_pos hc] at *
            omega
          · have h := ih c
            simp only [sockRun, sockStep, totalSubmits, if_neg hc] at *
            omega

/-- A run of socket events never observes more completions than successful
submissions. -/
theorem sockRun_no_spurious (c : SockCounters) (tr : List SockEvent)
    (h : c.completed ≤ c.submittedOk) :
    (sockRun c tr).completed ≤ (sockRun c tr).submittedOk := by
  induction tr generalizing c with
  | nil => simpa [sockRun] using h
  | cons e rest ih =>
      cases e with
      | submitOk =>
          refine ih { c with submittedOk := c.submittedOk + 1 } ?_
          simp only
          omega
      | submitFail =>
          refine ih { c with submittedFail := c.submittedFail + 1 } ?_
          simpa using h
      | complete =>
          by_cases hc : c.completed < c.submittedOk
          · have := ih { c with completed := c.completed + 1 } (by simp only; omega)
            simpa [sockRun, sockStep, if_pos hc] using this
          · have := ih c h
            simpa [sockRun, sockStep, if_neg hc] using this

/-- C3: for every finite run of a Watched Socket that ends with a clean
`Shutdown` (which drains all outstanding descriptors), the number of
descriptors observed as completed equals the number of successful
submissions, which is the total number of submissions minus those whose
submission failed synchronously; and along the run the observed count never
exceeds the successfully submitted count, so no spurious completion is ever
delivered. -/
theorem sock_completion_conservation (tr : List SockEvent) :
    (sockShutdown (sockRun initSock tr)).completed
        = (sockRun initSock tr).submittedOk ∧
    (sockShutdown (sockRun initSock tr)).completed
        = totalSubmits tr - (sockRun initSock tr).submittedFail ∧
    (∀ pre suf, tr = pre ++ suf →
      (sockRun initSock pre).completed
        ≤ (sockRun initSock pre).submittedOk) := by
  refine ⟨rfl, ?_, ?_⟩
  · have h := sockRun_total initSock tr
    rw [show initSock.submittedOk = 0 from rfl,
        show initSock.submittedFail = 0 from rfl] at h
    simp only [sockShutdown]
    omega
  · intro pre suf hpre
    exact sockRun_no_spurious initSock pre (by simp [initSock])

/-- Witness for C3 on the run with two successful submissions, one failed
submission and one observed completion, followed by a clean shutdown. -/
theorem sock_completion_conservation_wit :
    (sockShutdown (sockRun initSock
        [SockEvent.submitOk, SockEvent.submitFail, SockEvent.submitOk,
         SockEvent.complete])).completed
      = (sockRun initSock
        [SockEvent.submitOk, SockEvent.submitFail, SockEvent.submitOk,
         SockEvent.complete]).submittedOk ∧
    (sockShutdown (sockRun initSock
        [SockEvent.submitOk, SockEvent.submitFail, SockEvent.submitOk,
         SockEvent.complete])).completed
      = totalSubmits
          [SockEvent.submitOk, SockEvent.submitFail, SockEvent.submitOk,
           SockEvent.complete]
        - (sockRun initSock
            [SockEvent.submitOk, SockEvent.submitFail, SockEvent.submitOk,
             SockEvent.complete]).submittedFail ∧
    (∀ pre suf,
      [SockEvent.submitOk, SockEvent.submitFail, SockEvent.submitOk,
       SockEvent.complete] = pre ++ suf →
      (sockRun initSock pre).completed
        ≤ (sockRun initSock pre).submittedOk) :=
  sock_completion_conservation
    [SockEvent.submitOk, SockEvent.submitFail, SockEvent.submitOk,
     SockEvent.complete]

end GrpcModel

namespace GrpcContext

/-- C9: for every context element type with a registered legacy index,
`Context<T>::set(value)` first invokes the registered destroy callback of the element on the
previously stored value when one is registered and resets that callback to
null, then stores the new pointer; when no callback is registered nothing is
invoked; afterwards `Context<T>::get()` returns exactly the pointer passed
to `set`, other slots are untouched, and a slot that was never set yields
null from `get`. -/
theorem Context_set_get (st : CallContextState) (T : OldStyleCtxType)
    (v : Option Nat) :
    (∀ d, (st.elems (kIndex T)).destroy = some d →
      (Context.set st (kIndex T) v).destroyLog
          = st.destroyLog ++ [(d, (st.elems (kIndex T)).value)] ∧
      ((Context.set st (kIndex T) v).elems (kIndex T)).destroy = none) ∧
    ((st.elems (kIndex T)).destroy = none →
      (Context.set st (kIndex T) v).destroyLog = st.destroyLog ∧
      ((Context.set st (kIndex T) v).elems (kIndex T)).destroy = none) ∧
    Context.get (Context.set st (kIndex T) v) (kIndex T) = v ∧
    (∀ j, j ≠ kIndex T →
      Context.get (Context.set st (kIndex T) v) j = Context.get st j) ∧
    Context.get initCallContext (kIndex T) = none := by
  have hframe : ∀ j, j ≠ kIndex T →
      (Context.set st (kIndex T) v).elems j = st.elems j := by
    intro j hj
    cases h : (st.elems (kIndex T)).destroy <;>
      simp [Context.set, h, if_neg hj]
  cases h : (st.elems (kIndex T)).destroy with
  | none =>
      refine ⟨?_, ?_, ?_, ?_, rfl⟩
      · intro d hd
        exact absurd hd (by simp)
      · intro _
        exact ⟨by simp [Context.set, h], by simp [Context.set, h]⟩
      · simp [Context.get, Context.set, h]
      · intro j hj
        simp [Context.get, hframe j hj]
  | some d =>
      refine ⟨?_, ?_, ?_, ?_, rfl⟩
      · intro e he
        injection he with hde
        subst hde
        exact ⟨by simp [Context.set, h], by simp [Context.set, h]⟩
      · intro hn
        exact absurd hn (by simp)
      · simp [Context.get, Context.set, h]
      · intro j hj
        simp [Context.get, hframe j hj]

/-- Witness for C9: setting the call slot of a context whose slot holds
value 7 with destroy callback 5 invokes callback 5 on value 7 and clears
the callback. -/
theorem Context_set_get_wit :
    (Context.set
        (⟨fun _ => { value := some 7, destroy := some 5 }, []⟩ : CallContextState)
        (kIndex OldStyleCtxType.callT) (some 9)).destroyLog
      = [] ++ [(5, some 7)] ∧
    ((Context.set
        (⟨fun _ => { value := some 7, destroy := some 5 }, []⟩ : CallContextState)
        (kIndex OldStyleCtxType.callT) (some 9)).elems
        (kIndex OldStyleCtxType.callT)).destroy = none := by
  exact (Context_set_get
    (⟨fun _ => { value := some 7, destroy := some 5 }, []⟩ : CallContextState)
    OldStyleCtxType.callT (some 9)).1 5 rfl

end GrpcContext

namespace GrpcEndpointPair

/-- C10: `grpc_iomgr_create_endpoint_pair` puts both sockets of the pair in
non-blocking mode and suppresses SIGPIPE on both before creating any
endpoint (the action trace is the socket-preparation actions followed by
the two endpoint creations), and returns a pair whose client endpoint wraps
the second socket `sv[1]` under the name `<name>:client` and whose server
endpoint wraps the first socket `sv[0]` under the name `<name>:server`,
both configured with the same preconditioned channel args. -/
theorem grpc_iomgr_create_endpoint_pair_spec (precond : Nat → Nat)
    (name : String) (args sv0 sv1 : Nat) :
    (grpc_iomgr_create_endpoint_pair precond name args sv0 sv1).2.client.fd
        = sv1 ∧
    (grpc_iomgr_create_endpoint_pair precond name args sv0 sv1).2.client.fdName
        = name ++ ":client" ∧
    (grpc_iomgr_create_endpoint_pair precond name args sv0 sv1).2.server.fd
        = sv0 ∧
    (grpc_iomgr_create_endpoint_pair precond name args sv0 sv1).2.server.fdName
        = name ++ ":server" ∧
    (grpc_iomgr_create_endpoint_pair precond name args sv0 sv1).2.client.args
        = precond args ∧
    (grpc_iomgr_create_endpoint_pair precond name args sv0 sv1).2.server.args
        = precond args ∧
    (grpc_iomgr_create_endpoint_pair precond name args sv0 sv1).1
        = create_sockets sv0 sv1
            ++ [SockAction.createEndpoint sv1 (name ++ ":client") (precond args),
                SockAction.createEndpoint sv0 (name ++ ":server") (precond args)] ∧
    (∀ a ∈ create_sockets sv0 sv1, isCreate a = false) ∧
    SockAction.setNonBlocking sv0 ∈ create_sockets sv0 sv1 ∧
    SockAction.setNonBlocking sv1 ∈ create_sockets sv0 sv1 ∧
    SockAction.setNoSigpipe sv0 ∈ create_sockets sv0 sv1 ∧
    SockAction.setNoSigpipe sv1 ∈ create_sockets sv0 sv1 := by
  refine ⟨rfl, rfl, rfl, rfl, rfl, rfl, rfl, ?_, ?_, ?_, ?_, ?_⟩
  · intro a ha
    simp only [create_sockets, List.mem_cons, List.not_mem_nil, or_false] at ha
    rcases ha with h | h | h | h <;> subst h <;> rfl
  · simp [create_sockets]
  · simp [create_sockets]
  · simp [create_sockets]
  · simp [create_sockets]

/-- Witness for C10 on concrete inputs: name "p", args 3, sockets 4 and 5,
identity preconditioning. -/
theorem grpc_iomgr_create_endpoint_pair_wit :
    (grpc_iomgr_create_endpoint_pair id "p" 3 4 5).2.client.fd = 5 ∧
    (grpc_iomgr_create_endpoint_pair id "p" 3 4 5).2.client.fdName
        = "p" ++ ":client" ∧
    (grpc_iomgr_create_endpoint_pair id "p" 3 4 5).2.server.fd = 4 ∧
    (grpc_iomgr_create_endpoint_pair id "p" 3 4 5).2.server.fdName
        = "p" ++ ":server" ∧
    (grpc_iomgr_create_endpoint_pair id "p" 3 4 5).2.client.args = id 3 ∧
    (grpc_iomgr_create_endpoint_pair id "p" 3 4 5).2.server.args = id 3 ∧
    (grpc_iomgr_create_endpoint_pair id "p" 3 4 5).1
        = create_sockets 4 5
            ++ [SockAction.createEndpoint 5 ("p" ++ ":client") (id 3),
                SockAction.createEndpoint 4 ("p" ++ ":server") (id 3)] ∧
    (∀ a ∈ create_sockets 4 5, isCreate a = false) ∧
    SockAction.setNonBlocking 4 ∈ create_sockets 4 5 ∧
    SockAction.setNonBlocking 5 ∈ create_sockets 4 5 ∧
    SockAction.setNoSigpipe 4 ∈ create_sockets 4 5 ∧
    SockAction.setNoSigpipe 5 ∈ create_sockets 4 5 :=
  grpc_iomgr_create_endpoint_pair_spec id "p" 3 4 5

end GrpcEndpointPair
